import Mathlib

/-!
Verification of the real-time channel manager of the AutoFilm web UI
(`src/webui/src/utils/api.ts`, class `WebSocketManager`).

The development is a shallow embedding of the class: the parsed wire values
(`JSON.parse` results) become the inductive `Json`; the listener registry
(`Map<string, ((data:any)=>void)[]>`) becomes an insertion-ordered association
list; the manager object together with the created `WebSocket` instances, the
pending `setTimeout` callbacks and the observable outputs (pings sent, listener
invocations, log lines) becomes the state `Sys`, and every handler of the class
(`connect`, `connectWebSocket`'s `onopen` / `onmessage` / `onclose`,
`sendHeartbeat`, `handleMessage`, `handleReconnect`, `on`, `off`, `disconnect`)
becomes a state-transformer; the browser event loop becomes a list of events
folded over the state.
-/

set_option autoImplicit false

namespace AutoFilm

/-- Values produced by `JSON.parse`. Objects are field lists; `JSON.parse`
yields objects without duplicate keys (a later duplicate overwrites), so
first-match lookup below is exact on parse results. -/
inductive Json where
  | null
  | bool (b : Bool)
  | num (n : Int)
  | str (s : String)
  | arr (elems : List Json)
  | obj (fields : List (String × Json))

/-- JavaScript truthiness of a parsed JSON value, as used by the
`message.data || message` expression in `handleMessage`. -/
def Json.truthy : Json → Bool
  | .null => false
  | .bool b => b
  | .num n => n != 0
  | .str s => s != ""
  | .arr _ => true
  | .obj _ => true

/-- Property access `value.k` on a parsed JSON value: a field of an object,
`undefined` (here `none`) otherwise. -/
def Json.getField (j : Json) (k : String) : Option Json :=
  match j with
  | .obj fields => fields.lookup k
  | _ => none

/-- A registered callback. `id` models the reference identity of the JS
function object (the same callback reference is modelled by the same
`Listener` value); `throws` tells, per payload, whether the callback throws
when invoked. -/
structure Listener where
  id : Nat
  throws : Json → Bool

/-- The listener registry `Map<string, ((data:any)=>void)[]>`: topics in
insertion order, each with its callback array in registration order. `Map`
keys are unique and the operations below preserve uniqueness. -/
abbrev Registry := List (String × List Listener)

/-- The body of `on(event, callback)`: create the topic's array if absent,
then push the callback at the end. -/
def onEvent : Registry → String → Listener → Registry
  | [], e, cb => [(e, [cb])]
  | (k, ls) :: rest, e, cb =>
      if k = e then (k, ls ++ [cb]) :: rest
      else (k, ls) :: onEvent rest e cb

/-- Remove the first callback with the given reference identity, as
`listeners.indexOf(callback)` followed by `splice(index, 1)`; no-op when the
reference is absent (`indexOf` returned -1). -/
def removeFirst (i : Nat) : List Listener → List Listener
  | [] => []
  | l :: rest => if l.id = i then rest else l :: removeFirst i rest

/-- The body of `off(event, callback)`: splice out the first occurrence of the
callback from the topic's array, if the topic has an array at all. -/
def offEvent : Registry → String → Listener → Registry
  | [], _, _ => []
  | (k, ls) :: rest, e, cb =>
      if k = e then (k, removeFirst cb.id ls) :: rest
      else (k, ls) :: offEvent rest e cb

/-- One listener call wrapped in its own `try { listener(...) } catch`:
the invocation record `(id, payload)` always happens, and the thrown
exception, when any, is caught and reported instead of propagating. -/
def callListener (l : Listener) (payload : Json) : (Nat × Json) × Option Nat :=
  ((l.id, payload), if l.throws payload then some l.id else none)

/-- The `listeners.forEach` loop of `handleMessage`: every callback of the
array is called in order through `callListener`; the first component collects
the invocation records, the second the ids of callbacks whose exception was
caught and logged. -/
def dispatchList (payload : Json) : List Listener → List (Nat × Json) × List Nat
  | [] => ([], [])
  | l :: rest =>
      let r := callListener l payload
      let rec' := dispatchList payload rest
      (r.1 :: rec'.1, r.2.toList ++ rec'.2)

/-- The key used by `this.listeners.get(message.type)`: only a string `type`
field can match an entry of the registry, whose keys are the strings passed
to `on`. -/
def topicOf (message : Json) : Option String :=
  match message.getField "type" with
  | some (.str s) => some s
  | _ => none

/-- The payload expression `message.data || message`: the `data` field when it
is present and truthy, the whole envelope otherwise. -/
def payloadOf (message : Json) : Json :=
  match message.getField "data" with
  | some d => if d.truthy then d else message
  | none => message

/-- The lookup `this.listeners.get(message.type) || []` of `handleMessage`. -/
def listenersFor (reg : Registry) (message : Json) : List Listener :=
  match topicOf message with
  | some t => (List.lookup t reg).getD []
  | none => []

/-- The body of `handleMessage(message)`: look the topic's array up
(`|| []` when absent), then run the `forEach` loop on `message.data || message`. -/
def handleMessage (reg : Registry) (message : Json) : List (Nat × Json) × List Nat :=
  dispatchList (payloadOf message) (listenersFor reg message)

/-- The `readyState` of a created `WebSocket`: `connecting` after the
constructor, `opened` (the constant `WebSocket.OPEN`) once the handshake
succeeded, `closing` after `close()` was called, `closed` once the close
event fired. -/
inductive ReadyState where
  | connecting
  | opened
  | closing
  | closed
  deriving DecidableEq, Repr

/-- The socket.io client handle of the `socket: Socket | null` field; only
its `connected` flag is ever read (in the `connect()` guard). -/
structure SocketIoClient where
  connected : Bool

/-- The fields of the `WebSocketManager` instance. `ws` is the id of the
`WebSocket` saved by `(this as any).ws = ws`; `socket` is the socket.io field,
initialized to `null` and never assigned anywhere in the class. -/
structure Manager where
  socket : Option SocketIoClient
  reconnectAttempts : Nat
  maxReconnectAttempts : Nat
  reconnectDelay : Nat
  listeners : Registry
  ws : Option Nat

/-- What a pending `setTimeout` callback will do when it fires: re-run
`connect()` (scheduled by `handleReconnect`) or run the `heartbeat` closure
captured over the `WebSocket` with the given id (scheduled by `sendHeartbeat`). -/
inductive TimerTask where
  | reconnect
  | heartbeat (wsId : Nat)
  deriving DecidableEq, Repr

/-- A pending `setTimeout` callback: its delay in milliseconds and its task. -/
structure Timer where
  delay : Nat
  task : TimerTask
  deriving DecidableEq, Repr

/-- The whole observable system: the manager, every `WebSocket` created so far
(id paired with its `readyState`; ids are handed out by `nextId`), the pending
timers, and the output history — ids of sockets a ping was sent on, the delays
passed to `setTimeout` by `handleReconnect`, the listener invocation records,
the ids of listeners whose exception was caught, and the error log lines. -/
structure Sys where
  mgr : Manager
  sockets : List (Nat × ReadyState)
  nextId : Nat
  timers : List Timer
  pings : List Nat
  scheduledReconnects : List Nat
  invocations : List (Nat × Json)
  listenerErrors : List Nat
  errorLog : List String

/-- The manager as built by the class field initializers: `socket = null`,
`reconnectAttempts = 0`, `maxReconnectAttempts = 5`, `reconnectDelay = 1000`,
an empty listener map, and no `WebSocket` saved yet. -/
def initManager : Manager :=
  { socket := none
    reconnectAttempts := 0
    maxReconnectAttempts := 5
    reconnectDelay := 1000
    listeners := []
    ws := none }

/-- The system right after `new WebSocketManager()`: nothing created, nothing
pending, empty history. -/
def init : Sys :=
  { mgr := initManager
    sockets := []
    nextId := 0
    timers := []
    pings := []
    scheduledReconnects := []
    invocations := []
    listenerErrors := []
    errorLog := [] }

/-- Update the `readyState` of the socket with the given id. -/
def updateAt (i : Nat) (f : ReadyState → ReadyState) :
    List (Nat × ReadyState) → List (Nat × ReadyState) :=
  List.map (fun p => if p.1 = i then (p.1, f p.2) else p)

/-- The guard of `connect()`: `this.socket?.connected`, optional chaining on
the socket.io field — `undefined` (falsy) when the field is `null`. -/
def socketConnectedGuard (m : Manager) : Bool :=
  match m.socket with
  | some c => c.connected
  | none => false

/-- The body of `connect()`: return at once when `this.socket?.connected` is
truthy, otherwise `connectWebSocket()` — build a new `WebSocket` (readyState
CONNECTING) and save it in `(this as any).ws`. -/
def connectStep (s : Sys) : Sys :=
  if socketConnectedGuard s.mgr then s
  else
    { s with
      mgr := { s.mgr with ws := some s.nextId }
      sockets := s.sockets ++ [(s.nextId, .connecting)]
      nextId := s.nextId + 1 }

/-- The `heartbeat` closure of `sendHeartbeat(ws)`, one execution: when the
captured socket's `readyState` is `WebSocket.OPEN`, send the ping and
`setTimeout(heartbeat, 30000)`; otherwise do nothing (and in particular do not
reschedule). -/
def heartbeatTick (i : Nat) (s : Sys) : Sys :=
  if List.lookup i s.sockets = some .opened then
    { s with
      pings := s.pings ++ [i]
      timers := s.timers ++ [⟨30000, .heartbeat i⟩] }
  else s

/-- The environment delivers the open event of socket `i` (enabled only on a
CONNECTING socket; otherwise nothing happens): the socket becomes OPEN and the
`ws.onopen` handler runs — `this.reconnectAttempts = 0`, then
`this.sendHeartbeat(ws)`, whose `heartbeat()` call runs at once. -/
def openEvt (i : Nat) (s : Sys) : Sys :=
  if List.lookup i s.sockets = some .connecting then
    heartbeatTick i
      { s with
        sockets := updateAt i (fun _ => .opened) s.sockets
        mgr := { s.mgr with reconnectAttempts := 0 } }
  else s

/-- The body of `handleReconnect()`: below the attempt bound, increment the
counter and `setTimeout(() => this.connect(), this.reconnectDelay *
this.reconnectAttempts)`; at the bound, only log the exhaustion message. The
scheduled delay is also recorded in `scheduledReconnects`, the permanent
history used to observe the backoff sequence. -/
def handleReconnect (s : Sys) : Sys :=
  if s.mgr.reconnectAttempts < s.mgr.maxReconnectAttempts then
    let a := s.mgr.reconnectAttempts + 1
    { s with
      mgr := { s.mgr with reconnectAttempts := a }
      timers := s.timers ++ [⟨s.mgr.reconnectDelay * a, .reconnect⟩]
      scheduledReconnects := s.scheduledReconnects ++ [s.mgr.reconnectDelay * a] }
  else
    { s with errorLog := s.errorLog ++ ["Max reconnection attempts reached"] }

/-- The environment fires the close event of socket `i` (enabled on any
not-yet-CLOSED socket — a server-side drop, a failed handshake, or the
completion of a client `close()`): the socket becomes CLOSED and the
`ws.onclose` handler runs — `this.handleReconnect()`. Every created socket's
`onclose` does this; the handler closes over the manager, not over `ws`. -/
def closeEvt (i : Nat) (s : Sys) : Sys :=
  match List.lookup i s.sockets with
  | some st =>
      if st = .closed then s
      else handleReconnect { s with sockets := updateAt i (fun _ => .closed) s.sockets }
  | none => s

/-- The body of `disconnect()`: `ws.close()` on the saved socket when present
(per the WebSocket API, a no-op on a CLOSED socket, otherwise the state
becomes CLOSING; the close event fires later), then `this.listeners.clear()`. -/
def disconnectStep (s : Sys) : Sys :=
  let s' :=
    match s.mgr.ws with
    | some i =>
        { s with
          sockets :=
            updateAt i (fun st => if st = ReadyState.closed then .closed else .closing)
              s.sockets }
    | none => s
  { s' with mgr := { s'.mgr with listeners := [] } }

/-- The environment delivers a text frame `raw` on socket `i` (messages arrive
only on an OPEN socket): the `ws.onmessage` handler runs —
`try { JSON.parse(event.data); handleMessage(...) } catch { log }`. `parse`
abstracts the platform `JSON.parse`: `none` is a thrown `SyntaxError`. -/
def messageEvt (parse : String → Option Json) (i : Nat) (raw : String) (s : Sys) : Sys :=
  if List.lookup i s.sockets = some .opened then
    match parse raw with
    | some j =>
        let r := handleMessage s.mgr.listeners j
        { s with
          invocations := s.invocations ++ r.1
          listenerErrors := s.listenerErrors ++ r.2 }
    | none => { s with errorLog := s.errorLog ++ ["Failed to parse WebSocket message"] }
  else s

/-- Remove the first pending timer with the given task, returning the rest;
`none` when no such timer is pending. -/
def takeTimer (tk : TimerTask) : List Timer → Option (List Timer)
  | [] => none
  | t :: rest =>
      if t.task = tk then some rest
      else (takeTimer tk rest).map (t :: ·)

/-- The event loop fires a pending reconnect timer: it is consumed and its
callback `() => this.connect()` runs. -/
def fireReconnect (s : Sys) : Sys :=
  match takeTimer .reconnect s.timers with
  | some rest => connectStep { s with timers := rest }
  | none => s

/-- The event loop fires a pending heartbeat timer of socket `i`: it is
consumed and the `heartbeat` closure captured over that socket runs. -/
def fireHeartbeat (i : Nat) (s : Sys) : Sys :=
  match takeTimer (.heartbeat i) s.timers with
  | some rest => heartbeatTick i { s with timers := rest }
  | none => s

/-- A call `on(event, callback)` on the manager. -/
def onStep (t : String) (cb : Listener) (s : Sys) : Sys :=
  { s with mgr := { s.mgr with listeners := onEvent s.mgr.listeners t cb } }

/-- A call `off(event, callback)` on the manager. -/
def offStep (t : String) (cb : Listener) (s : Sys) : Sys :=
  { s with mgr := { s.mgr with listeners := offEvent s.mgr.listeners t cb } }

/-- The events the single-threaded event loop can interleave: the public calls
`connect()` / `disconnect()` / `on` / `off`, the environment-driven socket
events, and the firing of a pending timer. -/
inductive Ev where
  | connect
  | disconnect
  | openSock (i : Nat)
  | closeSock (i : Nat)
  | message (i : Nat) (raw : String)
  | fireRec
  | fireHb (i : Nat)
  | reg (t : String) (cb : Listener)
  | unreg (t : String) (cb : Listener)

/-- One step of the event loop. -/
def step (parse : String → Option Json) (e : Ev) (s : Sys) : Sys :=
  match e with
  | .connect => connectStep s
  | .disconnect => disconnectStep s
  | .openSock i => openEvt i s
  | .closeSock i => closeEvt i s
  | .message i raw => messageEvt parse i raw s
  | .fireRec => fireReconnect s
  | .fireHb i => fireHeartbeat i s
  | .reg t cb => onStep t cb s
  | .unreg t cb => offStep t cb s

/-- Run a sequence of events from a state. -/
def run (parse : String → Option Json) (es : List Ev) (s : Sys) : Sys :=
  es.foldl (fun s e => step parse e s) s

/-- The body of `isConnected()`: `ws && ws.readyState === WebSocket.OPEN`. -/
def isConnected (s : Sys) : Bool :=
  match s.mgr.ws with
  | some i => List.lookup i s.sockets = some .opened
  | none => false

/-- A parse function for concrete traces that carry no message events: every
string fails to parse. -/
def noParse : String → Option Json := fun _ => none

/-! Helper lemmas about the association-list operations. -/

theorem updateAt_cons (i : Nat) (f : ReadyState → ReadyState) (k : Nat) (v : ReadyState)
    (rest : List (Nat × ReadyState)) :
    updateAt i f ((k, v) :: rest) =
      (if k = i then (k, f v) else (k, v)) :: updateAt i f rest := rfl

theorem lookup_updateAt_self (i : Nat) (f : ReadyState → ReadyState)
    (l : List (Nat × ReadyState)) :
    List.lookup i (updateAt i f l) = (List.lookup i l).map f := by
  induction l with
  | nil => rfl
  | cons p rest ih =>
      obtain ⟨k, v⟩ := p
      rw [updateAt_cons]
      by_cases h : k = i
      · subst h
        rw [if_pos rfl]
        simp [List.lookup]
      · rw [if_neg h]
        have h' : (i == k) = false := by
          rw [beq_eq_false_iff_ne]
          exact fun e => h e.symm
        simp [List.lookup, h', ih]

theorem lookup_updateAt_ne (i j : Nat) (hij : i ≠ j) (f : ReadyState → ReadyState)
    (l : List (Nat × ReadyState)) :
    List.lookup i (updateAt j f l) = List.lookup i l := by
  induction l with
  | nil => rfl
  | cons p rest ih =>
      obtain ⟨k, v⟩ := p
      rw [updateAt_cons]
      by_cases h : k = j
      · rw [if_pos h]
        have h' : (i == k) = false := by
          rw [beq_eq_false_iff_ne]
          intro e; exact hij (e.trans h)
        simp [List.lookup, h', ih]
      · rw [if_neg h]
        by_cases h2 : i = k
        · subst h2
          simp [List.lookup]
        · have h' : (i == k) = false := by
            rw [beq_eq_false_iff_ne]; exact h2
          simp [List.lookup, h', ih]

theorem lookup_append_left_some {α β : Type} [BEq α] (a : α) (b : β)
    (l l' : List (α × β)) (h : List.lookup a l = some b) :
    List.lookup a (l ++ l') = some b := by
  induction l with
  | nil => simp [List.lookup] at h
  | cons p rest ih =>
      by_cases hc : (a == p.1) = true
      · simpa [List.lookup, hc] using h
      · have hc' : (a == p.1) = false := by simpa using hc
        simp [List.lookup, hc'] at h ⊢
        exact ih h

theorem lookup_onEvent_self (reg : Registry) (t : String) (cb : Listener) :
    List.lookup t (onEvent reg t cb) = some ((List.lookup t reg).getD [] ++ [cb]) := by
  induction reg with
  | nil => simp [onEvent, List.lookup]
  | cons p rest ih =>
      by_cases h : p.1 = t
      · cases p with
        | mk k ls => simp only at h; subst h; simp [onEvent, List.lookup]
      · cases p with
        | mk k ls =>
            simp only at h
            have h' : (t == k) = false := by
              simp [beq_iff_eq]
              exact fun e => h e.symm
            simp [onEvent, List.lookup, h, h', ih]

theorem heartbeatTick_mgr (i : Nat) (s : Sys) : (heartbeatTick i s).mgr = s.mgr := by
  unfold heartbeatTick; split <;> rfl

theorem heartbeatTick_sockets (i : Nat) (s : Sys) :
    (heartbeatTick i s).sockets = s.sockets := by
  unfold heartbeatTick; split <;> rfl

theorem heartbeatTick_scheduledReconnects (i : Nat) (s : Sys) :
    (heartbeatTick i s).scheduledReconnects = s.scheduledReconnects := by
  unfold heartbeatTick; split <;> rfl

theorem heartbeatTick_count_ne (i j : Nat) (hij : j ≠ i) (s : Sys) :
    (heartbeatTick j s).pings.count i = s.pings.count i := by
  unfold heartbeatTick; split
  · simp [List.count_append, List.count_cons, hij]
  · rfl

theorem handleReconnect_sockets (s : Sys) : (handleReconnect s).sockets = s.sockets := by
  unfold handleReconnect; split <;> rfl

theorem handleReconnect_pings (s : Sys) : (handleReconnect s).pings = s.pings := by
  unfold handleReconnect; split <;> rfl

theorem dispatchList_fst (payload : Json) (ls : List Listener) :
    (dispatchList payload ls).1 = ls.map (fun l => (l.id, payload)) := by
  induction ls with
  | nil => rfl
  | cons l rest ih => simp [dispatchList, callListener, ih]

theorem dispatchList_snd (payload : Json) (ls : List Listener) :
    (dispatchList payload ls).2 =
      (ls.filter (fun l => l.throws payload)).map (fun l => l.id) := by
  induction ls with
  | nil => rfl
  | cons l rest ih =>
      by_cases h : l.throws payload = true
      · simp [dispatchList, callListener, h, ih]
      · simp [dispatchList, callListener, h, ih]

theorem run_cons (parse : String → Option Json) (e : Ev) (es : List Ev) (s : Sys) :
    run parse (e :: es) s = run parse es (step parse e s) := rfl

theorem connectStep_closed (s : Sys) (i : Nat)
    (h : List.lookup i s.sockets = some .closed) :
    List.lookup i (connectStep s).sockets = some .closed ∧
    (connectStep s).pings = s.pings := by
  rw [connectStep]
  split
  · exact ⟨h, rfl⟩
  · exact ⟨lookup_append_left_some i ReadyState.closed s.sockets _ h, rfl⟩

theorem disconnectStep_closed (s : Sys) (i : Nat)
    (h : List.lookup i s.sockets = some .closed) :
    List.lookup i (disconnectStep s).sockets = some .closed ∧
    (disconnectStep s).pings = s.pings := by
  rw [disconnectStep]
  cases hws : s.mgr.ws with
  | none => exact ⟨h, rfl⟩
  | some j =>
      refine ⟨?_, rfl⟩
      show List.lookup i
        (updateAt j (fun st => if st = ReadyState.closed then .closed else .closing)
          s.sockets) = some .closed
      by_cases hj : i = j
      · subst hj
        rw [lookup_updateAt_self, h]
        rfl
      · rw [lookup_updateAt_ne i j hj]
        exact h

theorem openEvt_closed (s : Sys) (i j : Nat)
    (h : List.lookup i s.sockets = some .closed) :
    List.lookup i (openEvt j s).sockets = some .closed ∧
    (openEvt j s).pings.count i = s.pings.count i := by
  by_cases hj : j = i
  · subst hj
    rw [openEvt, if_neg (by rw [h]; simp)]
    exact ⟨h, rfl⟩
  · rw [openEvt]
    split
    · constructor
      · rw [heartbeatTick_sockets]
        show List.lookup i (updateAt j (fun _ => ReadyState.opened) s.sockets) =
          some .closed
        rw [lookup_updateAt_ne i j (fun e => hj e.symm)]
        exact h
      · exact heartbeatTick_count_ne i j hj _
    · exact ⟨h, rfl⟩

theorem closeEvt_closed (s : Sys) (i j : Nat)
    (h : List.lookup i s.sockets = some .closed) :
    List.lookup i (closeEvt j s).sockets = some .closed ∧
    (closeEvt j s).pings = s.pings := by
  rw [closeEvt]
  split
  · split
    · exact ⟨h, rfl⟩
    · constructor
      · rw [handleReconnect_sockets]
        show List.lookup i (updateAt j (fun _ => ReadyState.closed) s.sockets) =
          some .closed
        by_cases hj : i = j
        · subst hj
          rw [lookup_updateAt_self, h]
          rfl
        · rw [lookup_updateAt_ne i j hj]
          exact h
      · rw [handleReconnect_pings]
  · exact ⟨h, rfl⟩

theorem messageEvt_sockets_pings (parse : String → Option Json) (j : Nat) (raw : String)
    (s : Sys) :
    (messageEvt parse j raw s).sockets = s.sockets ∧
    (messageEvt parse j raw s).pings = s.pings := by
  rw [messageEvt]
  split
  · split <;> exact ⟨rfl, rfl⟩
  · exact ⟨rfl, rfl⟩

theorem fireReconnect_closed (s : Sys) (i : Nat)
    (h : List.lookup i s.sockets = some .closed) :
    List.lookup i (fireReconnect s).sockets = some .closed ∧
    (fireReconnect s).pings = s.pings := by
  rw [fireReconnect]
  split
  · next rest hrest => exact connectStep_closed _ i h
  · exact ⟨h, rfl⟩

theorem fireHeartbeat_closed (s : Sys) (i j : Nat)
    (h : List.lookup i s.sockets = some .closed) :
    List.lookup i (fireHeartbeat j s).sockets = some .closed ∧
    (fireHeartbeat j s).pings.count i = s.pings.count i := by
  rw [fireHeartbeat]
  split
  · next rest hrest =>
      constructor
      · rw [heartbeatTick_sockets]
        exact h
      · by_cases hj : j = i
        · subst hj
          have h' : List.lookup j ({ s with timers := rest } : Sys).sockets =
              some .closed := h
          rw [heartbeatTick, if_neg (by rw [h']; simp)]
        · exact heartbeatTick_count_ne i j hj _
  · exact ⟨h, rfl⟩

theorem step_closed (parse : String → Option Json) (e : Ev) (s : Sys) (i : Nat)
    (h : List.lookup i s.sockets = some .closed) :
    List.lookup i (step parse e s).sockets = some .closed ∧
    (step parse e s).pings.count i = s.pings.count i := by
  cases e with
  | connect =>
      obtain ⟨h1, h2⟩ := connectStep_closed s i h
      exact ⟨h1, by show (connectStep s).pings.count i = _; rw [h2]⟩
  | disconnect =>
      obtain ⟨h1, h2⟩ := disconnectStep_closed s i h
      exact ⟨h1, by show (disconnectStep s).pings.count i = _; rw [h2]⟩
  | openSock j => exact openEvt_closed s i j h
  | closeSock j =>
      obtain ⟨h1, h2⟩ := closeEvt_closed s i j h
      exact ⟨h1, by show (closeEvt j s).pings.count i = _; rw [h2]⟩
  | message j raw =>
      obtain ⟨h1, h2⟩ := messageEvt_sockets_pings parse j raw s
      exact ⟨by show List.lookup i (messageEvt parse j raw s).sockets = _; rw [h1]; exact h,
        by show (messageEvt parse j raw s).pings.count i = _; rw [h2]⟩
  | fireRec =>
      obtain ⟨h1, h2⟩ := fireReconnect_closed s i h
      exact ⟨h1, by show (fireReconnect s).pings.count i = _; rw [h2]⟩
  | fireHb j => exact fireHeartbeat_closed s i j h
  | reg t cb => exact ⟨h, rfl⟩
  | unreg t cb => exact ⟨h, rfl⟩

theorem run_closed (parse : String → Option Json) (es : List Ev) (s : Sys) (i : Nat)
    (h : List.lookup i s.sockets = some .closed) :
    List.lookup i (run parse es s).sockets = some .closed ∧
    (run parse es s).pings.count i = s.pings.count i := by
  induction es generalizing s with
  | nil => exact ⟨h, rfl⟩
  | cons e rest ih =>
      rw [run_cons]
      obtain ⟨h1, h2⟩ := step_closed parse e s i h
      obtain ⟨h3, h4⟩ := ih (step parse e s) h1
      exact ⟨h3, h4.trans h2⟩

/-! Claim theorems. -/

/-- C1: the claim says `connect()` is idempotent — a no-op, with no second
transport creation, whenever the connection is already Connected. The code
contradicts it: the guard reads `this.socket?.connected`, but the `socket`
field (a leftover of the socket.io implementation) is initialized to `null`
and never assigned, so the guard is always falsy. Evaluated at the failing
input — a manager whose transport has opened (`isConnected()` is true, and
indeed `socket` is still `null`) — a second `connect()` call creates a second
`WebSocket` and repoints the manager at it. -/
theorem C1_connect_second_transport_while_connected :
    isConnected (run noParse [.connect, .openSock 0] init) = true ∧
    (run noParse [.connect, .openSock 0] init).mgr.socket = none ∧
    (connectStep (run noParse [.connect, .openSock 0] init)).sockets =
      (run noParse [.connect, .openSock 0] init).sockets ++ [(1, .connecting)] ∧
    (connectStep (run noParse [.connect, .openSock 0] init)).mgr.ws = some 1 :=
  ⟨rfl, rfl, rfl, rfl⟩

/-- C2 counterexample: the claim says no reconnection attempt is ever
scheduled after an explicit `disconnect()`. In the code the `ws.onclose`
handler of the closed transport still runs `handleReconnect()`, which
schedules a retry. Concretely: connect, let socket 0 open, call
`disconnect()` — no reconnect timer is pending yet — then the close event of
socket 0 fires and a 1000 ms reconnect timer appears. -/
theorem C2_reconnect_scheduled_after_disconnect :
    ((run noParse [.connect, .openSock 0, .disconnect] init).timers.filter
      (fun t => t.task == .reconnect)) = [] ∧
    ((run noParse [.connect, .openSock 0, .disconnect, .closeSock 0] init).timers.filter
      (fun t => t.task == .reconnect)) = [⟨1000, .reconnect⟩] := by
  exact ⟨rfl, rfl⟩

/-- C2 amended: after an explicit `disconnect()` the transport (if present)
is put into CLOSING and the listener registry is cleared entirely; but
reconnection is still attempted afterwards — when the closed transport's
close event fires, `handleReconnect()` runs and schedules a retry whenever
the attempt counter is below the maximum. -/
theorem C2_disconnect_closes_clears_but_still_reconnects (s : Sys) (i : Nat)
    (st : ReadyState) (hws : s.mgr.ws = some i)
    (hst : List.lookup i s.sockets = some st) (hne : st ≠ .closed)
    (hlt : s.mgr.reconnectAttempts < s.mgr.maxReconnectAttempts) :
    (disconnectStep s).mgr.listeners = [] ∧
    List.lookup i (disconnectStep s).sockets = some .closing ∧
    (closeEvt i (disconnectStep s)).timers =
      (disconnectStep s).timers ++
        [⟨s.mgr.reconnectDelay * (s.mgr.reconnectAttempts + 1), .reconnect⟩] := by
  have hd : disconnectStep s =
      { s with
        sockets :=
          updateAt i (fun st => if st = ReadyState.closed then .closed else .closing)
            s.sockets
        mgr := { s.mgr with listeners := [] } } := by
    simp [disconnectStep, hws]
  have hlook : List.lookup i (disconnectStep s).sockets = some .closing := by
    rw [hd]
    show List.lookup i
        (updateAt i (fun st => if st = ReadyState.closed then .closed else .closing)
          s.sockets) = some .closing
    rw [lookup_updateAt_self, hst]
    simp [hne]
  refine ⟨by rw [hd], hlook, ?_⟩
  show (closeEvt i (disconnectStep s)).timers = _
  rw [closeEvt, hlook]
  simp only
  rw [if_neg (by simp)]
  rw [handleReconnect]
  rw [if_pos (by rw [hd]; exact hlt)]
  rw [hd]

/-- Witness for the amended C2 theorem at a concrete run: connect, socket 0
opens, `disconnect()`; the registry is empty, socket 0 is CLOSING, and the
subsequent close event schedules a 1000 ms reconnect timer. -/
theorem C2_disconnect_closes_clears_but_still_reconnects_witness :
    (disconnectStep (run noParse [.connect, .openSock 0] init)).mgr.listeners = [] ∧
    List.lookup 0 (disconnectStep (run noParse [.connect, .openSock 0] init)).sockets =
      some .closing ∧
    (closeEvt 0 (disconnectStep (run noParse [.connect, .openSock 0] init))).timers =
      (disconnectStep (run noParse [.connect, .openSock 0] init)).timers ++
        [⟨1000, .reconnect⟩] := by
  simpa using
    C2_disconnect_closes_clears_but_still_reconnects
      (run noParse [.connect, .openSock 0] init) 0 .opened rfl rfl
      (by decide) (by decide)

/-- C3: from a fresh manager, with consecutive close events and no successful
open in between (each retry timer fires, recreates a transport, and that
transport closes again), the k-th close schedules a retry after exactly
1000 * k ms for k = 1..5, and the 6th close schedules nothing and logs the
exhaustion message. The permanent `scheduledReconnects` history records each
delay passed to `setTimeout` by `handleReconnect`. -/
theorem C3_linear_backoff_sequence :
    (run noParse [.connect, .closeSock 0] init).scheduledReconnects = [1000] ∧
    (run noParse [.connect, .closeSock 0, .fireRec, .closeSock 1]
      init).scheduledReconnects = [1000, 2000] ∧
    (run noParse [.connect, .closeSock 0, .fireRec, .closeSock 1, .fireRec, .closeSock 2]
      init).scheduledReconnects = [1000, 2000, 3000] ∧
    (run noParse [.connect, .closeSock 0, .fireRec, .closeSock 1, .fireRec, .closeSock 2,
      .fireRec, .closeSock 3] init).scheduledReconnects = [1000, 2000, 3000, 4000] ∧
    (run noParse [.connect, .closeSock 0, .fireRec, .closeSock 1, .fireRec, .closeSock 2,
      .fireRec, .closeSock 3, .fireRec, .closeSock 4] init).scheduledReconnects =
      [1000, 2000, 3000, 4000, 5000] ∧
    (run noParse [.connect, .closeSock 0, .fireRec, .closeSock 1, .fireRec, .closeSock 2,
      .fireRec, .closeSock 3, .fireRec, .closeSock 4, .fireRec, .closeSock 5]
      init).scheduledReconnects = [1000, 2000, 3000, 4000, 5000] ∧
    (run noParse [.connect, .closeSock 0, .fireRec, .closeSock 1, .fireRec, .closeSock 2,
      .fireRec, .closeSock 3, .fireRec, .closeSock 4, .fireRec, .closeSock 5]
      init).errorLog = ["Max reconnection attempts reached"] := by
  refine ⟨rfl, rfl, rfl, rfl, rfl, rfl, rfl⟩

/-- C4: every successful transport open runs `this.reconnectAttempts = 0`, so
whatever the attempt count was before, the next close event goes through
`handleReconnect` with a counter of 0 and schedules a retry after
`reconnectDelay * 1 = 1000` ms. -/
theorem C4_open_resets_attempt_counter (s : Sys) (i : Nat)
    (hconn : List.lookup i s.sockets = some .connecting)
    (hdelay : s.mgr.reconnectDelay = 1000)
    (hmax : 0 < s.mgr.maxReconnectAttempts) :
    (openEvt i s).mgr.reconnectAttempts = 0 ∧
    (closeEvt i (openEvt i s)).scheduledReconnects =
      (openEvt i s).scheduledReconnects ++ [1000] := by
  have ho : openEvt i s =
      heartbeatTick i
        { s with
          sockets := updateAt i (fun _ => .opened) s.sockets
          mgr := { s.mgr with reconnectAttempts := 0 } } := by
    rw [openEvt, if_pos hconn]
  have hmgr : (openEvt i s).mgr = { s.mgr with reconnectAttempts := 0 } := by
    rw [ho, heartbeatTick_mgr]
  have hsock : List.lookup i (openEvt i s).sockets = some .opened := by
    rw [ho, heartbeatTick_sockets]
    show List.lookup i (updateAt i (fun _ => .opened) s.sockets) = some .opened
    rw [lookup_updateAt_self, hconn]
    rfl
  refine ⟨by rw [hmgr], ?_⟩
  rw [closeEvt, hsock]
  simp only
  rw [if_neg (by simp)]
  rw [handleReconnect]
  rw [if_pos (by simpa [hmgr] using hmax)]
  simp [hmgr, hdelay]

/-- Witness for the C4 theorem: after three failed attempts the counter is 3
and socket 3 is CONNECTING; its open event resets the counter to 0, and the
following close schedules a 1000 ms retry (the history grows by 1000, not by
4000). -/
theorem C4_open_resets_attempt_counter_witness :
    (run noParse [.connect, .closeSock 0, .fireRec, .closeSock 1, .fireRec, .closeSock 2,
        .fireRec] init).mgr.reconnectAttempts = 3 ∧
    (openEvt 3 (run noParse [.connect, .closeSock 0, .fireRec, .closeSock 1, .fireRec,
        .closeSock 2, .fireRec] init)).mgr.reconnectAttempts = 0 ∧
    (closeEvt 3 (openEvt 3 (run noParse [.connect, .closeSock 0, .fireRec, .closeSock 1,
        .fireRec, .closeSock 2, .fireRec] init))).scheduledReconnects =
      [1000, 2000, 3000, 1000] := by
  have h :=
    C4_open_resets_attempt_counter
      (run noParse [.connect, .closeSock 0, .fireRec, .closeSock 1, .fireRec, .closeSock 2,
        .fireRec] init) 3 rfl rfl (by decide)
  refine ⟨rfl, h.1, ?_⟩
  rw [h.2]
  rw [show (openEvt 3 (run noParse [.connect, .closeSock 0, .fireRec, .closeSock 1,
    .fireRec, .closeSock 2, .fireRec] init)).scheduledReconnects =
      [1000, 2000, 3000] from rfl]
  rfl

/-- C5 counterexample: the claim says the whole envelope is passed exactly
when the `data` field is absent. The code uses `message.data || message`,
which also falls back on a present-but-falsy `data`: for the envelope
`{"type":"x","data":0}` the field is present (it is `0`), yet the registered
listener receives the whole envelope, not `0`. -/
theorem C5_falsy_data_triggers_fallback :
    Json.getField (Json.obj [("type", Json.str "x"), ("data", Json.num 0)]) "data" =
      some (Json.num 0) ∧
    (handleMessage [("x", [⟨7, fun _ => false⟩])]
        (Json.obj [("type", Json.str "x"), ("data", Json.num 0)])).1 =
      [(7, Json.obj [("type", Json.str "x"), ("data", Json.num 0)])] ∧
    Json.obj [("type", Json.str "x"), ("data", Json.num 0)] ≠ Json.num 0 :=
  ⟨rfl, rfl, fun h => Json.noConfusion h⟩

/-- C5 amended: the payload handed to every listener is
`message.data || message` — the `data` field when it is present and truthy,
and the whole envelope when `data` is absent or falsy (`null`, `false`, `0`,
`""`). -/
theorem C5_payload_is_data_or_envelope (reg : Registry) (env d : Json) :
    (env.getField "data" = some d → d.truthy = true → payloadOf env = d) ∧
    (env.getField "data" = some d → d.truthy = false → payloadOf env = env) ∧
    (env.getField "data" = none → payloadOf env = env) ∧
    (∀ p ∈ (handleMessage reg env).1, p.2 = payloadOf env) := by
  refine ⟨?_, ?_, ?_, ?_⟩
  · intro h ht
    rw [payloadOf, h]
    simp [ht]
  · intro h ht
    rw [payloadOf, h]
    simp [ht]
  · intro h
    rw [payloadOf, h]
  · intro p hp
    rw [handleMessage, dispatchList_fst] at hp
    obtain ⟨l, _, hl⟩ := List.mem_map.mp hp
    rw [← hl]

/-- Witness for the amended C5 theorem: a truthy `data` (`1`) is delivered
itself, a falsy `data` (`0`) makes the whole envelope the payload, an absent
`data` makes the whole envelope the payload, and in a dispatch every
invocation carries that payload. -/
theorem C5_payload_is_data_or_envelope_witness :
    payloadOf (Json.obj [("type", Json.str "x"), ("data", Json.num 1)]) = Json.num 1 ∧
    payloadOf (Json.obj [("type", Json.str "x"), ("data", Json.num 0)]) =
      Json.obj [("type", Json.str "x"), ("data", Json.num 0)] ∧
    payloadOf (Json.obj [("type", Json.str "x")]) = Json.obj [("type", Json.str "x")] ∧
    (∀ p ∈ (handleMessage [("x", [⟨7, fun _ => false⟩])]
        (Json.obj [("type", Json.str "x"), ("data", Json.num 1)])).1,
      p.2 = payloadOf (Json.obj [("type", Json.str "x"), ("data", Json.num 1)])) :=
  ⟨(C5_payload_is_data_or_envelope [] (Json.obj [("type", Json.str "x"),
      ("data", Json.num 1)]) (Json.num 1)).1 rfl rfl,
   (C5_payload_is_data_or_envelope [] (Json.obj [("type", Json.str "x"),
      ("data", Json.num 0)]) (Json.num 0)).2.1 rfl rfl,
   (C5_payload_is_data_or_envelope [] (Json.obj [("type", Json.str "x")])
      Json.null).2.2.1 rfl,
   (C5_payload_is_data_or_envelope [("x", [⟨7, fun _ => false⟩])]
      (Json.obj [("type", Json.str "x"), ("data", Json.num 1)]) Json.null).2.2.2⟩

/-- C6: dispatching an envelope of topic `t` invokes exactly the
currently-registered listeners of `t`, in registration order, each with the
same payload: after registering `A` then `B` on `t`, the invocation list is
the previously registered listeners followed by `A` then `B`, all paired with
the dispatch payload; and on a topic with no listener array the dispatch
invokes nothing. -/
theorem C6_dispatch_in_registration_order (reg : Registry) (t : String) (A B : Listener)
    (env : Json) (htopic : topicOf env = some t) :
    (handleMessage (onEvent (onEvent reg t A) t B) env).1 =
      ((List.lookup t reg).getD [] ++ [A, B]).map (fun l => (l.id, payloadOf env)) ∧
    (List.lookup t reg = none → (handleMessage reg env).1 = []) := by
  constructor
  · have hl : listenersFor (onEvent (onEvent reg t A) t B) env =
        (List.lookup t reg).getD [] ++ [A, B] := by
      unfold listenersFor
      rw [htopic]
      show (List.lookup t (onEvent (onEvent reg t A) t B)).getD [] = _
      rw [lookup_onEvent_self, lookup_onEvent_self]
      simp
    rw [handleMessage, hl, dispatchList_fst]
  · intro hnone
    have hl : listenersFor reg env = [] := by
      unfold listenersFor
      rw [htopic]
      show (List.lookup t reg).getD [] = _
      rw [hnone]
      rfl
    rw [handleMessage, hl]
    rfl

/-- Witness for the C6 theorem: on an empty registry, registering callbacks 1
then 2 on topic x and dispatching `{"type":"x","data":"P"}` invokes 1 with
"P" and then 2 with "P"; dispatching the same envelope on the empty registry
invokes nothing. -/
theorem C6_dispatch_in_registration_order_witness :
    (handleMessage
        (onEvent (onEvent ([] : Registry) "x" ⟨1, fun _ => false⟩) "x"
          ⟨2, fun _ => false⟩)
        (Json.obj [("type", Json.str "x"), ("data", Json.str "P")])).1 =
      [(1, Json.str "P"), (2, Json.str "P")] ∧
    (handleMessage ([] : Registry)
        (Json.obj [("type", Json.str "x"), ("data", Json.str "P")])).1 = [] := by
  have h :=
    C6_dispatch_in_registration_order ([] : Registry) "x" ⟨1, fun _ => false⟩
      ⟨2, fun _ => false⟩ (Json.obj [("type", Json.str "x"), ("data", Json.str "P")]) rfl
  exact ⟨by simpa using h.1, h.2 rfl⟩

/-- C7: listener isolation. With the topic's array being
`pre ++ A :: mid ++ B :: post` and `A` throwing on this payload, the
invocation list is still the whole array in order with the common payload
(so `B` receives the very same dispatch), `A`'s exception is caught and
logged, and no listener's exception prevents any later listener from
running. -/
theorem C7_listener_exception_isolated (reg : Registry) (t : String) (env : Json)
    (pre mid post : List Listener) (A B : Listener)
    (htopic : topicOf env = some t)
    (hreg : List.lookup t reg = some (pre ++ A :: mid ++ B :: post))
    (hthrow : A.throws (payloadOf env) = true) :
    (handleMessage reg env).1 =
      (pre ++ A :: mid ++ B :: post).map (fun l => (l.id, payloadOf env)) ∧
    A.id ∈ (handleMessage reg env).2 ∧
    (B.id, payloadOf env) ∈ (handleMessage reg env).1 := by
  have hl : listenersFor reg env = pre ++ A :: mid ++ B :: post := by
    unfold listenersFor
    rw [htopic]
    show (List.lookup t reg).getD [] = _
    rw [hreg]
    rfl
  refine ⟨?_, ?_, ?_⟩
  · rw [handleMessage, hl, dispatchList_fst]
  · rw [handleMessage, hl, dispatchList_snd]
    refine List.mem_map.mpr ⟨A, ?_, rfl⟩
    refine List.mem_filter.mpr ⟨?_, hthrow⟩
    simp
  · rw [handleMessage, hl, dispatchList_fst]
    refine List.mem_map.mpr ⟨B, ?_, rfl⟩
    simp

/-- Witness for the C7 theorem: listener 1 throws on every payload, listener
2 does not; dispatching `{"type":"x","data":"P"}` still invokes both in
order, logs the caught exception of listener 1, and delivers "P" to listener
2. -/
theorem C7_listener_exception_isolated_witness :
    (handleMessage [("x", [⟨1, fun _ => true⟩, ⟨2, fun _ => false⟩])]
        (Json.obj [("type", Json.str "x"), ("data", Json.str "P")])).1 =
      [(1, Json.str "P"), (2, Json.str "P")] ∧
    1 ∈ (handleMessage [("x", [⟨1, fun _ => true⟩, ⟨2, fun _ => false⟩])]
        (Json.obj [("type", Json.str "x"), ("data", Json.str "P")])).2 ∧
    (2, Json.str "P") ∈
      (handleMessage [("x", [⟨1, fun _ => true⟩, ⟨2, fun _ => false⟩])]
        (Json.obj [("type", Json.str "x"), ("data", Json.str "P")])).1 := by
  have h :=
    C7_listener_exception_isolated
      [("x", [⟨1, fun _ => true⟩, ⟨2, fun _ => false⟩])] "x"
      (Json.obj [("type", Json.str "x"), ("data", Json.str "P")])
      [] [] [] ⟨1, fun _ => true⟩ ⟨2, fun _ => false⟩ rfl rfl rfl
  exact ⟨by simpa using h.1, by simpa using h.2.1, by simpa using h.2.2⟩

/-- C8: on an inbound raw string that fails to parse, the `onmessage` handler
catches the exception: the manager, the sockets, the timers, the ping
history, the invocation history and the caught-listener-error history are all
unchanged — in particular no listener is invoked and the connection is not
closed — and at most the failure is logged. -/
theorem C8_decode_failure_inert (parse : String → Option Json) (s : Sys)
    (i : Nat) (raw : String) (hfail : parse raw = none) :
    (messageEvt parse i raw s).mgr = s.mgr ∧
    (messageEvt parse i raw s).sockets = s.sockets ∧
    (messageEvt parse i raw s).timers = s.timers ∧
    (messageEvt parse i raw s).pings = s.pings ∧
    (messageEvt parse i raw s).invocations = s.invocations ∧
    (messageEvt parse i raw s).listenerErrors = s.listenerErrors ∧
    ((messageEvt parse i raw s).errorLog = s.errorLog ∨
      (messageEvt parse i raw s).errorLog =
        s.errorLog ++ ["Failed to parse WebSocket message"]) := by
  by_cases hg : List.lookup i s.sockets = some .opened
  · rw [messageEvt, if_pos hg, hfail]
    exact ⟨rfl, rfl, rfl, rfl, rfl, rfl, Or.inr rfl⟩
  · rw [messageEvt, if_neg hg]
    exact ⟨rfl, rfl, rfl, rfl, rfl, rfl, Or.inl rfl⟩

/-- Witness for the C8 theorem: a non-JSON frame delivered on the open socket
0 leaves the whole observable state unchanged apart from the log line. -/
theorem C8_decode_failure_inert_witness :
    (messageEvt noParse 0 "not json" (run noParse [.connect, .openSock 0] init)).mgr =
      (run noParse [.connect, .openSock 0] init).mgr ∧
    (messageEvt noParse 0 "not json" (run noParse [.connect, .openSock 0] init)).sockets =
      (run noParse [.connect, .openSock 0] init).sockets ∧
    (messageEvt noParse 0 "not json" (run noParse [.connect, .openSock 0] init)).timers =
      (run noParse [.connect, .openSock 0] init).timers ∧
    (messageEvt noParse 0 "not json" (run noParse [.connect, .openSock 0] init)).pings =
      (run noParse [.connect, .openSock 0] init).pings ∧
    (messageEvt noParse 0 "not json"
        (run noParse [.connect, .openSock 0] init)).invocations =
      (run noParse [.connect, .openSock 0] init).invocations ∧
    (messageEvt noParse 0 "not json"
        (run noParse [.connect, .openSock 0] init)).listenerErrors =
      (run noParse [.connect, .openSock 0] init).listenerErrors ∧
    ((messageEvt noParse 0 "not json" (run noParse [.connect, .openSock 0] init)).errorLog =
        (run noParse [.connect, .openSock 0] init).errorLog ∨
      (messageEvt noParse 0 "not json"
          (run noParse [.connect, .openSock 0] init)).errorLog =
        (run noParse [.connect, .openSock 0] init).errorLog ++
          ["Failed to parse WebSocket message"]) :=
  C8_decode_failure_inert noParse (run noParse [.connect, .openSock 0] init) 0
    "not json" rfl

/-- C10: registering the same callback reference twice on one topic makes a
dispatch invoke it exactly twice, and a single `off` removes only the first
occurrence, so the next dispatch invokes it exactly once. -/
theorem C10_duplicate_registration (t : String) (A : Listener)
    (env : Json) (htopic : topicOf env = some t) :
    (handleMessage (onEvent (onEvent ([] : Registry) t A) t A) env).1 =
      [(A.id, payloadOf env), (A.id, payloadOf env)] ∧
    (handleMessage (offEvent (onEvent (onEvent ([] : Registry) t A) t A) t A) env).1 =
      [(A.id, payloadOf env)] := by
  have h2 : onEvent (onEvent ([] : Registry) t A) t A = [(t, [A, A])] := by
    simp [onEvent]
  have h3 : offEvent [(t, [A, A])] t A = [(t, [A])] := by
    simp [offEvent, removeFirst]
  constructor
  · have hl : listenersFor (onEvent (onEvent ([] : Registry) t A) t A) env = [A, A] := by
      rw [h2]
      unfold listenersFor
      rw [htopic]
      show (List.lookup t [(t, [A, A])]).getD [] = _
      simp [List.lookup]
    rw [handleMessage, hl, dispatchList_fst]
    rfl
  · rw [h2, h3]
    have hl : listenersFor [(t, [A])] env = [A] := by
      unfold listenersFor
      rw [htopic]
      show (List.lookup t [(t, [A])]).getD [] = _
      simp [List.lookup]
    rw [handleMessage, hl, dispatchList_fst]
    rfl

/-- Witness for the C10 theorem: callback 5 registered twice on topic x is
invoked twice by one dispatch; after one `off` it is invoked once (here
`data` is absent, so the payload is the whole envelope). -/
theorem C10_duplicate_registration_witness :
    (handleMessage (onEvent (onEvent ([] : Registry) "x" ⟨5, fun _ => false⟩) "x"
        ⟨5, fun _ => false⟩) (Json.obj [("type", Json.str "x")])).1 =
      [(5, Json.obj [("type", Json.str "x")]), (5, Json.obj [("type", Json.str "x")])] ∧
    (handleMessage (offEvent (onEvent (onEvent ([] : Registry) "x" ⟨5, fun _ => false⟩)
        "x" ⟨5, fun _ => false⟩) "x" ⟨5, fun _ => false⟩)
        (Json.obj [("type", Json.str "x")])).1 =
      [(5, Json.obj [("type", Json.str "x")])] := by
  have h :=
    C10_duplicate_registration "x" ⟨5, fun _ => false⟩
      (Json.obj [("type", Json.str "x")]) rfl
  exact ⟨by simpa using h.1, by simpa using h.2⟩

/-- C9: heartbeat cadence. When a CONNECTING transport opens, exactly one
ping is sent on it at once and exactly one 30000 ms heartbeat timer is
scheduled; when a pending heartbeat timer of socket `i` fires, a ping is sent
and a new 30000 ms timer is scheduled exactly when the socket is still OPEN
at fire time, and nothing is sent or rescheduled otherwise; and once socket
`i` is CLOSED, no sequence of further events ever sends another ping on it. -/
theorem C9_heartbeat_cadence (s : Sys) (i : Nat) :
    (List.lookup i s.sockets = some .connecting →
      (openEvt i s).pings = s.pings ++ [i] ∧
      (openEvt i s).timers = s.timers ++ [⟨30000, .heartbeat i⟩]) ∧
    (∀ rest, takeTimer (.heartbeat i) s.timers = some rest →
      (List.lookup i s.sockets = some .opened →
        (fireHeartbeat i s).pings = s.pings ++ [i] ∧
        (fireHeartbeat i s).timers = rest ++ [⟨30000, .heartbeat i⟩]) ∧
      (¬ List.lookup i s.sockets = some .opened →
        (fireHeartbeat i s).pings = s.pings ∧
        (fireHeartbeat i s).timers = rest)) ∧
    (List.lookup i s.sockets = some .closed →
      ∀ parse es, List.lookup i (run parse es s).sockets = some .closed ∧
        (run parse es s).pings.count i = s.pings.count i) := by
  refine ⟨?_, ?_, ?_⟩
  · intro hconn
    rw [openEvt, if_pos hconn]
    have hguard : List.lookup i
        ({ s with
            sockets := updateAt i (fun _ => ReadyState.opened) s.sockets
            mgr := { s.mgr with reconnectAttempts := 0 } } : Sys).sockets =
        some .opened := by
      show List.lookup i (updateAt i (fun _ => ReadyState.opened) s.sockets) =
        some .opened
      rw [lookup_updateAt_self, hconn]
      rfl
    rw [heartbeatTick, if_pos hguard]
    exact ⟨rfl, rfl⟩
  · intro rest hrest
    constructor
    · intro hopen
      rw [fireHeartbeat, hrest]
      show (heartbeatTick i { s with timers := rest }).pings = _ ∧
        (heartbeatTick i { s with timers := rest }).timers = _
      have hguard : List.lookup i ({ s with timers := rest } : Sys).sockets =
          some .opened := hopen
      rw [heartbeatTick, if_pos hguard]
      exact ⟨rfl, rfl⟩
    · intro hnot
      rw [fireHeartbeat, hrest]
      show (heartbeatTick i { s with timers := rest }).pings = _ ∧
        (heartbeatTick i { s with timers := rest }).timers = _
      have hguard : ¬ List.lookup i ({ s with timers := rest } : Sys).sockets =
          some .opened := hnot
      rw [heartbeatTick, if_neg hguard]
      exact ⟨rfl, rfl⟩
  · intro hclosed parse es
    exact run_closed parse es s i hclosed

/-- Witness for the C9 theorem: opening socket 0 sends its first and only
immediate ping and schedules one 30 s timer; firing that timer while the
socket is still open sends a second ping and reschedules; after the socket
closed, firing a pending heartbeat timer sends nothing and reschedules
nothing, and further events (including the fired heartbeat timer, a
reconnect, a second socket closing) never send another ping on socket 0. -/
theorem C9_heartbeat_cadence_witness :
    (openEvt 0 (connectStep init)).pings = [0] ∧
    (openEvt 0 (connectStep init)).timers = [⟨30000, .heartbeat 0⟩] ∧
    (fireHeartbeat 0 (run noParse [.connect, .openSock 0] init)).pings = [0, 0] ∧
    (fireHeartbeat 0 (run noParse [.connect, .openSock 0] init)).timers =
      [⟨30000, .heartbeat 0⟩] ∧
    (fireHeartbeat 0
        (run noParse [.connect, .openSock 0, .disconnect, .closeSock 0] init)).pings =
      [0] ∧
    (fireHeartbeat 0
        (run noParse [.connect, .openSock 0, .disconnect, .closeSock 0] init)).timers =
      [⟨1000, .reconnect⟩] ∧
    (run noParse [.fireHb 0, .fireRec, .closeSock 1]
        (run noParse [.connect, .openSock 0, .disconnect, .closeSock 0]
          init)).pings.count 0 = 1 := by
  refine ⟨?_, ?_, ?_, ?_, ?_, ?_, ?_⟩
  · simpa using ((C9_heartbeat_cadence (connectStep init) 0).1 rfl).1
  · simpa using ((C9_heartbeat_cadence (connectStep init) 0).1 rfl).2
  · simpa using
      (((C9_heartbeat_cadence (run noParse [.connect, .openSock 0] init) 0).2.1
        [] rfl).1 rfl).1
  · simpa using
      (((C9_heartbeat_cadence (run noParse [.connect, .openSock 0] init) 0).2.1
        [] rfl).1 rfl).2
  · simpa using
      (((C9_heartbeat_cadence
        (run noParse [.connect, .openSock 0, .disconnect, .closeSock 0] init) 0).2.1
        [⟨1000, .reconnect⟩] rfl).2 (by decide)).1
  · simpa using
      (((C9_heartbeat_cadence
        (run noParse [.connect, .openSock 0, .disconnect, .closeSock 0] init) 0).2.1
        [⟨1000, .reconnect⟩] rfl).2 (by decide)).2
  · simpa using
      ((C9_heartbeat_cadence
        (run noParse [.connect, .openSock 0, .disconnect, .closeSock 0] init) 0).2.2
        rfl noParse [.fireHb 0, .fireRec, .closeSock 1]).2

end AutoFilm
